import Mathlib

/-!
Shallow embedding of the multi-agent customer-support system
(`mcp_server.py`, `server.py`, `a2a_agents.py`).

The embedding models:
* the Tool Backend dispatch (`call_tool` in `mcp_server.py`): the
  `get_customer`, `update_customer` and `create_ticket` branches over an
  in-memory list of customer / ticket rows standing for the SQLite tables;
* the `update_customer` tool of the divergent `server.py` variant;
* the Router agent's classification fallback, customer-id annotation
  rewrite and coordination-path analysis step (`router_agent_node`);
* the Data Agent's argument normalization and no-tool-call rule pass
  (`customer_data_agent_node`).

Python string operations (`in`, `.lower()`, `.isdigit()`, truthiness of
`None`/`0`/`""`) and the regular expressions used by the agents
(`(?:customer|id)\s*(\d+)`, `id\s*(\d+)`, `customer\s*(\d+)`,
`to\s+([\w\.-]+@[\w\.-]+\.\w+)`) are modelled explicitly below.
-/

/-! ## Python string primitives -/

/-- Python `str.lower()` (inputs are ASCII). -/
def pyLower (s : String) : String :=
  String.mk (s.data.map Char.toLower)

/-- Helper for substring search: does `needle` occur as a contiguous
sublist of `l`?  Models Python `needle in haystack` on the char lists. -/
def hasSub (needle : List Char) : List Char → Bool
  | [] => needle.isEmpty
  | c :: rest => needle.isPrefixOf (c :: rest) || hasSub needle rest

/-- Python `needle in haystack` for strings (substring containment). -/
def sContains (hay needle : String) : Bool :=
  hasSub needle.data hay.data

/-- Python `str.isdigit()` for ASCII strings: nonempty and all digits. -/
def pyIsDigit (s : String) : Bool :=
  !s.isEmpty && s.data.all Char.isDigit

/-- Python truthiness of an optional integer argument: `None` and `0` are
falsy (`if not customer_id: ...`). -/
def pyTruthyInt : Option Int → Bool
  | none => false
  | some n => !(n == 0)

/-- Python truthiness of an optional string argument: `None` and `""` are
falsy. -/
def pyTruthyStr : Option String → Bool
  | none => false
  | some s => !(s == "")

/-- Python truthiness of an optional natural number (an id extracted with
`int(...)` from digits, so never negative). -/
def pyTruthyNat : Option Nat → Bool
  | none => false
  | some n => !(n == 0)

/-- Python `x or d` for an optional number `x` and default `d`:
`None or d = d` and `0 or d = d`. -/
def pyOrNat (o : Option Nat) (d : Nat) : Nat :=
  match o with
  | none => d
  | some n => if n = 0 then d else n

/-! ## Tool Backend data model (`mcp_server.py`)

The SQLite tables `customers` and `tickets` are modelled as in-memory
lists of rows.  The dispatch branches of `call_tool` become functions
from the request arguments and the current store to a response paired
with the resulting store.  `Err.invalidArgument` stands for the
`HTTPException(status_code=400, ...)` responses and `Err.notFound` for
the `HTTPException(status_code=404, ...)` responses. -/

structure Customer where
  id : Int
  name : String
  email : String
  phone : String
  status : String
deriving DecidableEq, Repr

structure Ticket where
  id : Int
  customer_id : Int
  issue : String
  status : String
  priority : String
deriving DecidableEq, Repr

inductive Err where
  | invalidArgument
  | notFound
deriving DecidableEq, Repr

/-- Dispatch branch `tool_name == "get_customer"` of `call_tool`:
`if not customer_id:` raises a 400 (so `None` and `0` are both rejected);
otherwise the first row with matching `id` is returned, and a 404 is
raised when there is none. -/
def get_customer (customer_id : Option Int) (customers : List Customer) :
    Except Err Customer :=
  match customer_id with
  | none => .error .invalidArgument
  | some i =>
    if i = 0 then .error .invalidArgument
    else
      match customers.find? (fun c => c.id == i) with
      | some c => .ok c
      | none => .error .notFound

/-- The patch part of an `update_customer` request: the four updatable
fields declared in the tool's input schema, each possibly absent
(`arguments.get(...)` yielding `None`). -/
structure UpdatePatch where
  name : Option String
  email : Option String
  phone : Option String
  status : Option String
deriving DecidableEq, Repr

/-- The empty patch: no non-null fields besides `customer_id`. -/
def emptyPatch : UpdatePatch := ⟨none, none, none, none⟩

/-- Python `updates = {k: v for k, v in arguments.items() if k != "customer_id"
and v is not None}` is empty exactly when all four fields are absent. -/
def patchIsEmpty (p : UpdatePatch) : Bool :=
  p.name.isNone && p.email.isNone && p.phone.isNone && p.status.isNone

/-- Applying the non-null fields of a patch to a customer row
(the generated `UPDATE customers SET ... WHERE id = ?`). -/
def applyPatch (p : UpdatePatch) (c : Customer) : Customer :=
  { c with
    name := p.name.getD c.name
    email := p.email.getD c.email
    phone := p.phone.getD c.phone
    status := p.status.getD c.status }

inductive UpdateResult where
  | noFieldsToUpdate
  | updated
deriving DecidableEq, Repr

/-- Dispatch branch `tool_name == "update_customer"` of `call_tool`:
falsy `customer_id` → 400; empty update dict → success
`{"message": "No fields to update"}` with no database access; otherwise
the `UPDATE` runs and `cursor.rowcount == 0` → 404. -/
def update_customer (customer_id : Option Int) (p : UpdatePatch)
    (customers : List Customer) :
    Except Err UpdateResult × List Customer :=
  match customer_id with
  | none => (.error .invalidArgument, customers)
  | some i =>
    if i = 0 then (.error .invalidArgument, customers)
    else if patchIsEmpty p then (.ok .noFieldsToUpdate, customers)
    else
      let rows := (customers.filter (fun c => c.id == i)).length
      if rows = 0 then (.error .notFound, customers)
      else (.ok .updated,
            customers.map (fun c => if c.id == i then applyPatch p c else c))

/-- SQLite `cursor.lastrowid` for the `tickets` table: one more than the
largest existing ticket id. -/
def next_ticket_id (tickets : List Ticket) : Int :=
  tickets.foldl (fun m t => max m t.id) 0 + 1

/-- Dispatch branch `tool_name == "create_ticket"` of `call_tool`:
`if not all([customer_id, issue, priority]):` raises a 400 (so a missing
field, a zero id, or an empty string is rejected); otherwise a row with
`status = 'open'` is inserted and `cursor.lastrowid` is returned. -/
def create_ticket (customer_id : Option Int) (issue priority : Option String)
    (tickets : List Ticket) : Except Err Int × List Ticket :=
  match customer_id, issue, priority with
  | some c, some i, some p =>
    if c = 0 ∨ i = "" ∨ p = "" then (.error .invalidArgument, tickets)
    else
      let tid := next_ticket_id tickets
      (.ok tid,
       tickets ++ [{ id := tid, customer_id := c, issue := i,
                     status := "open", priority := p }])
  | _, _, _ => (.error .invalidArgument, tickets)

/-! ## The divergent `update_customer` tool of `server.py`

`server.py` implements the same operation differently: the decoded patch
(the tool receives a JSON string; the function below takes the decoded
field mapping, string-valued per the schema) is filtered to the valid
keys, and an empty filtered patch returns the string
`"Error: No valid fields provided for update."` instead of a no-op
success; the customer's existence is then checked with a `SELECT` before
the `UPDATE`. -/

def server_apply_field (c : Customer) (kv : String × String) : Customer :=
  if kv.1 = "name" then { c with name := kv.2 }
  else if kv.1 = "email" then { c with email := kv.2 }
  else if kv.1 = "phone" then { c with phone := kv.2 }
  else if kv.1 = "status" then { c with status := kv.2 }
  else c

/-- The `update_customer` tool of `server.py` (post JSON decoding). -/
def server_update_customer (customer_id : Int)
    (update_fields : List (String × String)) (customers : List Customer) :
    String × List Customer :=
  let valid_keys := ["name", "email", "phone", "status"]
  let filtered_data := update_fields.filter (fun kv => valid_keys.contains kv.1)
  if filtered_data.isEmpty then
    ("Error: No valid fields provided for update.", customers)
  else if (customers.find? (fun c => c.id == customer_id)).isNone then
    ("Error: Customer with ID " ++ toString customer_id ++ " not found.",
     customers)
  else
    ("Successfully updated customer " ++ toString customer_id ++ ".",
     customers.map (fun c =>
       if c.id == customer_id then filtered_data.foldl server_apply_field c
       else c))

/-! ## Regex models

`re.search(r'(?:customer|id)\s*(\d+)', s)` and its single-keyword
variants: scan left to right for the first position where one of the
keywords matches, skip any whitespace, and capture a nonempty maximal
digit run.  (Greedy `\s*` followed by `\d+` admits no other backtracking
outcome, so this scan is exactly the regex's leftmost match.) -/

/-- Python `\s` character class: `[ \t\n\r\f\v]`. -/
def isPySpace (c : Char) : Bool :=
  c = ' ' || c = '\t' || c = '\n' || c = '\r' || c = '\x0b' || c = '\x0c'

/-- Try `kw` followed by `\s*(\d+)` at the head of `l`; return the
captured digit run. -/
def kwNumAt (kw : List Char) (l : List Char) : Option (List Char) :=
  if kw.isPrefixOf l then
    let rest := (l.drop kw.length).dropWhile isPySpace
    let ds := rest.takeWhile Char.isDigit
    if ds.isEmpty then none else some ds
  else none

/-- Try each keyword alternative in order at the head of `l`. -/
def kwsNumAt (kws : List (List Char)) (l : List Char) : Option (List Char) :=
  kws.foldl (fun acc kw => acc.orElse (fun _ => kwNumAt kw l)) none

/-- Leftmost match of `(?:kw1|kw2|...)\s*(\d+)`: the captured digits. -/
def findKwNum (kws : List (List Char)) : List Char → Option (List Char)
  | [] => none
  | c :: rest =>
    match kwsNumAt kws (c :: rest) with
    | some ds => some ds
    | none => findKwNum kws rest

/-- Python `int(...)` on a captured digit run. -/
def digitsToNat (ds : List Char) : Nat :=
  ds.foldl (fun n c => n * 10 + (c.toNat - '0'.toNat)) 0

/-- `re.search(r'(?:customer|id)\s*(\d+)', query.lower())`, as used by both
the Router and the Data Agent; the captured digit string. -/
def extract_id_digits (q : String) : Option (List Char) :=
  findKwNum ["customer".data, "id".data] (pyLower q).data

/-- The Data Agent's `extracted_id`: `int(match.group(1))` of the above. -/
def extracted_id_of (q : String) : Option Nat :=
  (extract_id_digits q).map digitsToNat

/-- `re.search(r'id\s*(\d+)', query_lower)` as a number. -/
def id_num_of (qld : List Char) : Option Nat :=
  (findKwNum ["id".data] qld).map digitsToNat

/-- `re.search(r'customer\s*(\d+)', query_lower)` as a number. -/
def cust_num_of (qld : List Char) : Option Nat :=
  (findKwNum ["customer".data] qld).map digitsToNat

/-! Model of `re.search(r'to\s+([\w\.-]+@[\w\.-]+\.\w+)', query_lower)`,
the Data Agent's fallback email extractor.  Greedy matching with
backtracking over `[\w.-]+@[\w.-]+\.\w+` reduces to: a maximal run of
word/dot/dash characters, an `@`, then the longest domain prefix that is
followed by a dot and a word character, the dot, and a maximal word run. -/

/-- Python `\w` on ASCII input. -/
def charIsWord (c : Char) : Bool :=
  c.isAlphanum || c = '_'

/-- The `[\w\.-]` character class. -/
def charIsAddr (c : Char) : Bool :=
  charIsWord c || c = '.' || c = '-'

/-- Index of the last dot in `r` that is followed by a word character and
preceded by at least one character (the backtracking result for
`[\w.-]+\.\w+` against `r`). -/
def lastGoodDot (r : List Char) : Option Nat :=
  (List.range r.length).foldl
    (fun acc k =>
      if 1 ≤ k && r.getD k ' ' == '.' && charIsWord (r.getD (k + 1) ' ')
      then some k else acc)
    none

/-- Match `([\w\.-]+@[\w\.-]+\.\w+)` at the head of `l`. -/
def emailGroupAt (l : List Char) : Option (List Char) :=
  let a := l.takeWhile charIsAddr
  if a.isEmpty then none
  else
    match l.drop a.length with
    | '@' :: rest2 =>
      let r := rest2.takeWhile charIsAddr
      match lastGoodDot r with
      | some k =>
        some (a ++ ['@'] ++ r.take k ++ ['.'] ++
              ((r.drop (k + 1)).takeWhile charIsWord))
      | none => none
    | _ => none

/-- Match `to\s+([\w\.-]+@[\w\.-]+\.\w+)` at the head of `l`. -/
def emailAt (l : List Char) : Option (List Char) :=
  if "to".data.isPrefixOf l then
    let after := l.drop 2
    let ws := after.takeWhile isPySpace
    if ws.isEmpty then none else emailGroupAt (after.drop ws.length)
  else none

/-- Leftmost match of the email pattern: the captured group. -/
def emailSearch : List Char → Option (List Char)
  | [] => none
  | c :: rest =>
    match emailAt (c :: rest) with
    | some e => some e
    | none => emailSearch rest

/-! ## Router agent (`router_agent_node`) -/

inductive Mode where
  | data
  | support
  | coordination
deriving DecidableEq, Repr

/-- The keyword fallback in the `except` branch of the classification
step: `help/upgrade/refund/cancel/billing` ⇒ `"COORDINATION"`,
else `get/show/list/update` ⇒ `"DATA"`, else `"SUPPORT"`.
Each test is Python substring containment on the lowercased query. -/
def fallback_classification (q : String) : String :=
  if ["help", "upgrade", "refund", "cancel", "billing"].any
      (fun w => sContains (pyLower q) w) then "COORDINATION"
  else if ["get", "show", "list", "update"].any
      (fun w => sContains (pyLower q) w) then "DATA"
  else "SUPPORT"

/-- The dispatch on the classification string:
`if classification == "DATA" ... elif == "COORDINATION" ... else` SUPPORT
path. -/
def route_label (label : String) : Mode :=
  if label = "DATA" then .data
  else if label = "COORDINATION" then .coordination
  else .support

/-- The Router's effective mode.  `llmLabel = none` models the
classification chain raising (the `except` branch, which runs the keyword
fallback); `llmLabel = some l` is the chain's stripped, upper-cased
output. -/
def router_mode (llmLabel : Option String) (q : String) : Mode :=
  route_label (match llmLabel with
    | none => fallback_classification q
    | some l => l)

/-- The Router's customer-id annotation rewrite: if
`(?:customer|id)\s*(\d+)` matches the lowercased query and neither
`"customer N"` nor `"id N"` occurs in it, append `" (Customer ID: N)"`. -/
def enhance_query (q : String) : String :=
  match (extract_id_digits q).map String.mk with
  | none => q
  | some n =>
    if sContains (pyLower q) ("customer " ++ n) ||
       sContains (pyLower q) ("id " ++ n) then q
    else q ++ " (Customer ID: " ++ n ++ ")"

/-- The COORDINATION-path error check on the Data Agent's result:
`"ERROR" in data_result or "not found" in data_result.lower() or
"404" in data_result`. -/
def has_error_marker (data_result : String) : Bool :=
  sContains data_result "ERROR" ||
  sContains (pyLower data_result) "not found" ||
  sContains data_result "404"

/-- The query posed to the analysis generation step on the healthy
coordination path. -/
def analysis_query (user_query data_result : String) : String :=
  "Original Query: " ++ user_query ++ "\n\nCustomer Data: " ++ data_result ++
  "\n\nWhat support does this customer need? Provide a brief summary for the support agent."

/-- The Router's analysis on the COORDINATION path: when the Data Agent's
result carries an error marker, a synthetic note is built and the
generation step (`llm`) is not consulted; otherwise the generation step
is invoked on `analysis_query`. -/
def coordination_analysis (llm : String → String)
    (user_query data_result : String) : String :=
  if has_error_marker data_result then
    "Customer data retrieval failed: " ++ data_result ++
    ". The customer ID may not exist in the database."
  else llm (analysis_query user_query data_result)

/-- The composite message the Router sends to the Support Agent on the
COORDINATION path. -/
def support_query (llm : String → String)
    (user_query data_result : String) : String :=
  "Customer Query: " ++ user_query ++
  "\n\nData Agent Result: " ++ data_result ++
  "\n\nSupport Context: " ++ coordination_analysis llm user_query data_result

/-! ## Data Agent (`customer_data_agent_node`) -/

/-- A value in the untrusted tool-call argument mapping produced by the
generation step: a JSON number or string. -/
inductive PyVal where
  | intV (n : Int)
  | strV (s : String)
deriving DecidableEq, Repr

/-- Python `str(...)` on such a value. -/
def pyStr : PyVal → String
  | .intV n => toString n
  | .strV s => s

/-- Python `int(...)` on such a value, on the code path where
`str(arg_val).isdigit()` already holds (so the string case is a pure
digit run). -/
def pyValToInt : PyVal → Int
  | .intV n => n
  | .strV s => Int.ofNat (digitsToNat s.data)

/-- Python `x or d` for `Option Int`: `None or d = d`, `0 or d = d`. -/
def pyOrInt (o : Option Int) (d : Int) : Int :=
  match o with
  | none => d
  | some n => if n = 0 then d else n

/-- The Data Agent's argument normalization for `tool_name ==
"get_customer"`: prefer a structured `customer_id`; else parse `__arg1`
(`int(arg_val)` when `str(arg_val).isdigit()`, otherwise
`extracted_id or 5`); else a truthy `extracted_id`; else
`re.search(r'id\s*(\d+)', user_query.lower())` with final default 5.
`raw` is the untrusted argument mapping, `extracted_id` the id extracted
from the query at the top of the node, `qld` the lowercased query. -/
def normalize_get_customer (raw : List (String × PyVal))
    (extracted_id : Option Int) (qld : List Char) : List (String × PyVal) :=
  match raw.lookup "customer_id" with
  | some v => [("customer_id", v)]
  | none =>
    match raw.lookup "__arg1" with
    | some arg_val =>
      if pyIsDigit (pyStr arg_val) then
        [("customer_id", .intV (pyValToInt arg_val))]
      else
        [("customer_id", .intV (pyOrInt extracted_id 5))]
    | none =>
      if pyTruthyInt extracted_id then
        [("customer_id", .intV (extracted_id.getD 5))]
      else
        match id_num_of qld with
        | some n => [("customer_id", .intV (Int.ofNat n))]
        | none => [("customer_id", .intV 5)]

/-- A tool invocation attempted by the Data Agent's rule pass. -/
inductive ToolCall where
  | getCustomer (customer_id : Nat)
  | listCustomers (status : Option String) (limit : Nat)
  | updateCustomer (customer_id : Nat) (email : String)
  | createTicket (customer_id : Nat) (issue priority : String)
  | getCustomerHistory (customer_id : Nat)
deriving DecidableEq, Repr

/-- The deterministic rule pass taken when the generation step emits no
tool call: the sequence of tool invocations the Data Agent attempts,
branch by branch as in the source.  (On the `active customers` branch the
initial `list_customers` call is modelled; the per-customer history
fetches that follow depend on the backend's response and only add further
calls, so they are not enumerated here.)  Branches that attempt no call
leave the result at `"No data retrieved"` or append a
`"Could not determine action from query: ..."` note instead. -/
def rule_pass_calls (q : String) : List ToolCall :=
  let ql := pyLower q
  let qld := ql.data
  let extracted := extracted_id_of q
  if sContains ql "get customer" || sContains ql "customer information" then
    let inner := match id_num_of qld with
      | some n => [ToolCall.getCustomer n]
      | none => []
    match extracted with
    | some n => if n = 0 then inner else [ToolCall.getCustomer n]
    | none => inner
  else if sContains ql "i\x27m customer" || sContains ql "i am customer" ||
          (sContains ql "customer" && sContains ql "need help") then
    let inner := match cust_num_of qld with
      | some n => [ToolCall.getCustomer n]
      | none => []
    match extracted with
    | some n => if n = 0 then inner else [ToolCall.getCustomer n]
    | none => inner
  else if sContains ql "update" && sContains ql "email" then
    let cid := pyOrNat extracted 5
    (match emailSearch qld with
     | some e => [ToolCall.updateCustomer cid (String.mk e)]
     | none => []) ++
    (if sContains ql "history" || sContains ql "tickets" ||
        sContains ql "ticket" then
      [ToolCall.getCustomerHistory cid]
     else [])
  else if sContains ql "ticket history" || sContains ql "show my tickets" then
    [ToolCall.getCustomerHistory (pyOrNat extracted 5)]
  else if sContains ql "active customers" ||
          (sContains ql "show" && sContains ql "active" &&
           sContains ql "customers") then
    [ToolCall.listCustomers (some "active") 100]
  else
    match extracted with
    | some n => if n = 0 then [] else [ToolCall.getCustomer n]
    | none => []

/-! ## Theorems -/

/-- Claim C1, counterexample. The claim says a query containing
"charged" falls back to `COORDINATION`, and that the keyword fallback is
also taken when the classification step returns an unrecognized label.
In the code the fallback keyword list is
`["help", "upgrade", "refund", "cancel", "billing"]` — `"charged"` is not
in it — so a forced-failure classification of a "charged" query yields
`SUPPORT`; and an unrecognized label is routed straight to the `SUPPORT`
branch of the dispatch without running the keyword fallback, so
"I need a refund" under label `"UNKNOWN"` also yields `SUPPORT`, not
`COORDINATION`. -/
theorem router_fallback_cex :
    router_mode none "I was charged twice for my order" = Mode.support ∧
    router_mode (some "UNKNOWN") "I need a refund" = Mode.support ∧
    Mode.support ≠ Mode.coordination := by
  refine ⟨by decide, by decide, by decide⟩

/-- Claim C1, amended: when the classification step raises, the fallback
is the deterministic keyword function of the query text with keyword list
help/upgrade/refund/cancel/billing (without "charged") ⇒ `COORDINATION`,
else get/show/list/update ⇒ `DATA`, else `SUPPORT`; the three fixed
example queries classify as stated; an unrecognized label does not take
the keyword fallback but routes directly to the `SUPPORT` path. -/
theorem router_fallback_spec :
    (∀ q : String,
        (["help", "upgrade", "refund", "cancel", "billing"].any
            (fun w => sContains (pyLower q) w) = true →
          router_mode none q = Mode.coordination) ∧
        (["help", "upgrade", "refund", "cancel", "billing"].any
            (fun w => sContains (pyLower q) w) = false →
         ["get", "show", "list", "update"].any
            (fun w => sContains (pyLower q) w) = true →
          router_mode none q = Mode.data) ∧
        (["help", "upgrade", "refund", "cancel", "billing"].any
            (fun w => sContains (pyLower q) w) = false →
         ["get", "show", "list", "update"].any
            (fun w => sContains (pyLower q) w) = false →
          router_mode none q = Mode.support)) ∧
    router_mode none "I need a refund" = Mode.coordination ∧
    router_mode none "show me customer 5" = Mode.data ∧
    router_mode none "what are your hours" = Mode.support ∧
    (∀ label q : String, label ≠ "DATA" → label ≠ "COORDINATION" →
      router_mode (some label) q = Mode.support) := by
  refine ⟨?_, by decide, by decide, by decide, ?_⟩
  · intro q
    refine ⟨?_, ?_, ?_⟩
    · intro h
      simp [router_mode, fallback_classification, route_label, h]
    · intro h1 h2
      simp [router_mode, fallback_classification, route_label, h1, h2]
    · intro h1 h2
      simp [router_mode, fallback_classification, route_label, h1, h2]
  · intro label q h1 h2
    simp [router_mode, route_label, h1, h2]

/-- Claim C1, witness for the amended theorem at concrete inputs. -/
theorem router_fallback_spec_witness :
    router_mode none "please help" = Mode.coordination ∧
    router_mode (some "BANANA") "please help" = Mode.support :=
  ⟨(router_fallback_spec.1 "please help").1 (by decide),
   router_fallback_spec.2.2.2.2 "BANANA" "please help" (by decide) (by decide)⟩

/-- Claim C2, counterexample. The claim says that whenever `customer_id`,
`issue` and `priority` are all present a ticket is inserted.  The dispatch
guard is `if not all([customer_id, issue, priority])`, which also rejects
present-but-falsy values: a request with `customer_id = 0`, a nonempty
issue and a valid priority has all three fields present yet fails with
the InvalidArgument-style 400 error and inserts nothing. -/
theorem create_ticket_cex :
    create_ticket (some 0) (some "billing issue") (some "high") [] =
      (Except.error Err.invalidArgument, []) := by
  rfl

/-- Claim C2, amended: if the three fields are present and truthy
(nonzero `customer_id`, nonempty `issue` and `priority`), a ticket row
with `status = "open"` is inserted — whatever the priority value — and
the generated ticket id is returned; if any field is missing or falsy
(zero id, empty string), the call fails with InvalidArgument and the
ticket store is unchanged. -/
theorem create_ticket_spec :
    (∀ (c : Int) (i p : String) (ts : List Ticket),
        c ≠ 0 → i ≠ "" → p ≠ "" →
        create_ticket (some c) (some i) (some p) ts =
          (Except.ok (next_ticket_id ts),
           ts ++ [{ id := next_ticket_id ts, customer_id := c, issue := i,
                    status := "open", priority := p }])) ∧
    (∀ (co : Option Int) (io po : Option String) (ts : List Ticket),
        co = none ∨ io = none ∨ po = none ∨
          co = some 0 ∨ io = some "" ∨ po = some "" →
        create_ticket co io po ts = (Except.error Err.invalidArgument, ts)) := by
  constructor
  · intro c i p ts hc hi hp
    simp [create_ticket, hc, hi, hp]
  · rintro co io po ts (rfl | rfl | rfl | rfl | rfl | rfl)
    · cases io <;> cases po <;> rfl
    · cases co <;> cases po <;> rfl
    · cases co <;> cases io <;> rfl
    · cases io <;> cases po <;> simp [create_ticket]
    · cases co <;> cases po <;> simp [create_ticket]
    · cases co <;> cases io <;> simp [create_ticket]

/-- Claim C2, witness for the amended theorem at concrete inputs. -/
theorem create_ticket_spec_witness :
    create_ticket (some 7) (some "login issue") (some "high") [] =
      (Except.ok (next_ticket_id []),
       [{ id := next_ticket_id [], customer_id := 7, issue := "login issue",
          status := "open", priority := "high" }]) ∧
    create_ticket none (some "login issue") (some "high") [] =
      (Except.error Err.invalidArgument, []) :=
  ⟨by simpa using
      create_ticket_spec.1 7 "login issue" "high" [] (by decide) (by decide)
        (by decide),
   create_ticket_spec.2 none (some "login issue") (some "high") [] (Or.inl rfl)⟩

/-- Claim C3, counterexample. The claim says every id with no matching
row yields `NotFound`.  A request for id `0` never reaches the lookup:
the `if not customer_id` truthiness guard rejects it with the 400
InvalidArgument error, so with an empty store (no row matches id 0) the
result is InvalidArgument, not NotFound. -/
theorem get_customer_cex :
    get_customer (some 0) [] = Except.error Err.invalidArgument ∧
    get_customer (some 0) [] ≠ Except.error Err.notFound := by
  refine ⟨rfl, ?_⟩
  intro h
  rw [show get_customer (some 0) [] = Except.error Err.invalidArgument from rfl]
    at h
  simp at h

/-- Claim C3, amended: for every nonzero requested id, `get_customer`
returns a stored row whose `id` field equals the requested id whenever
one exists, and `NotFound` exactly when no row matches; a zero (or
missing) id is instead rejected by the truthiness guard. -/
theorem get_customer_spec (i : Int) (cs : List Customer) (hi : i ≠ 0) :
    ((∀ c ∈ cs, c.id ≠ i) → get_customer (some i) cs = Except.error Err.notFound) ∧
    (∀ c, get_customer (some i) cs = Except.ok c → c.id = i ∧ c ∈ cs) ∧
    ((∃ c ∈ cs, c.id = i) →
      ∃ c, get_customer (some i) cs = Except.ok c ∧ c.id = i ∧ c ∈ cs) := by
  have hbase : get_customer (some i) cs =
      match cs.find? (fun c => c.id == i) with
      | some c => Except.ok c
      | none => Except.error Err.notFound := by
    simp [get_customer, hi]
  refine ⟨?_, ?_, ?_⟩
  · intro habs
    have hnone : cs.find? (fun c => c.id == i) = none := by
      rw [List.find?_eq_none]
      intro c hc
      simpa using habs c hc
    rw [hbase, hnone]
  · intro c hc
    rw [hbase] at hc
    cases h : cs.find? (fun x => x.id == i) with
    | none => rw [h] at hc; cases hc
    | some c' =>
      rw [h] at hc
      have hcc : c' = c := by simpa using hc
      subst hcc
      have h1 := List.find?_some h
      have h2 := List.mem_of_find?_eq_some h
      exact ⟨by simpa using h1, h2⟩
  · rintro ⟨c, hc, hci⟩
    cases h : cs.find? (fun x => x.id == i) with
    | none =>
      rw [List.find?_eq_none] at h
      exact absurd (by simpa using hci) (by simpa using h c hc)
    | some c' =>
      have h1 := List.find?_some h
      have h2 := List.mem_of_find?_eq_some h
      exact ⟨c', by rw [hbase, h], by simpa using h1, h2⟩

/-- Demo store with a single customer row, id 5. -/
def demoCustomers : List Customer :=
  [{ id := 5, name := "Alice", email := "alice@example.com",
     phone := "555-0100", status := "active" }]

/-- Claim C3, witness for the amended theorem on the demo store. -/
theorem get_customer_spec_witness :
    ∃ c, get_customer (some 5) demoCustomers = Except.ok c ∧
      c.id = 5 ∧ c ∈ demoCustomers :=
  (get_customer_spec 5 demoCustomers (by decide)).2.2
    ⟨{ id := 5, name := "Alice", email := "alice@example.com",
       phone := "555-0100", status := "active" },
     by decide, by decide⟩

/-- Claim C4, counterexample. The claim says an empty patch succeeds for
every `customer_id` and is never an error.  At the dispatch, a zero
`customer_id` is rejected with the 400 error before the empty-patch check
runs; and the `server.py` variant of `update_customer` (also cited by the
claim) answers an empty patch with
`"Error: No valid fields provided for update."` instead of a no-op
success. -/
theorem update_customer_cex :
    update_customer (some 0) emptyPatch [] =
      (Except.error Err.invalidArgument, []) ∧
    (server_update_customer 5 [] []).1 =
      "Error: No valid fields provided for update." := by
  exact ⟨rfl, rfl⟩

/-- Claim C4, amended: at the Tool Backend dispatch, for every nonzero
`customer_id`, an empty patch (no recognized non-null fields) is a no-op
success — `{"message": "No fields to update"}` — and every stored field
of every customer is left unchanged; a zero or missing id is rejected
with a 400 error, and the `server.py` variant reports an error string for
an empty patch instead. -/
theorem update_customer_empty_patch (i : Int) (cs : List Customer)
    (hi : i ≠ 0) :
    update_customer (some i) emptyPatch cs =
      (Except.ok UpdateResult.noFieldsToUpdate, cs) := by
  simp [update_customer, emptyPatch, patchIsEmpty, hi]

/-- Claim C4, witness for the amended theorem at concrete inputs. -/
theorem update_customer_empty_patch_witness :
    update_customer (some 3) emptyPatch demoCustomers =
      (Except.ok UpdateResult.noFieldsToUpdate, demoCustomers) :=
  update_customer_empty_patch 3 demoCustomers (by decide)

/-- Claim C5: on the COORDINATION path, whenever the Data Agent's result
carries an error marker (`"ERROR"`, `"not found"` after lowercasing, or
`"404"`), the Router skips the analysis generation step — the message
sent to the Support Agent does not depend on the generation function at
all — and the analysis slot instead carries the synthetic note that the
customer data retrieval failed and the customer ID may not exist, which
is exactly the `Support Context` passed to the Support Agent. -/
theorem coordination_error_note (f g : String → String) (q d : String)
    (h : has_error_marker d = true) :
    support_query f q d = support_query g q d ∧
    coordination_analysis f q d =
      "Customer data retrieval failed: " ++ d ++
      ". The customer ID may not exist in the database." ∧
    support_query f q d =
      "Customer Query: " ++ q ++ "\n\nData Agent Result: " ++ d ++
      "\n\nSupport Context: " ++
      ("Customer data retrieval failed: " ++ d ++
       ". The customer ID may not exist in the database.") := by
  refine ⟨?_, ?_, ?_⟩ <;>
    simp [support_query, coordination_analysis, h]

/-- Claim C5, witness at a concrete error result: the composite support
message is identical under two different analysis generation functions. -/
theorem coordination_error_note_witness :
    has_error_marker "ERROR: Customer 12345 not found" = true ∧
    support_query (fun _ => "summary A") "I need an upgrade"
        "ERROR: Customer 12345 not found" =
      support_query (fun _ => "summary B") "I need an upgrade"
        "ERROR: Customer 12345 not found" :=
  ⟨by decide,
   (coordination_error_note (fun _ => "summary A") (fun _ => "summary B")
      "I need an upgrade" "ERROR: Customer 12345 not found" (by decide)).1⟩

/-- Claim C6, counterexample. The claim says the annotation rewrite is
idempotent.  It is not: the appended suffix spells `(Customer ID: N)`
with a colon, so its lowercasing `customer id: N` satisfies neither the
`"customer N"` nor the `"id N"` check, and a query the rewrite annotates
(such as `"customer12345"`, where the id is recognizable but not phrased
with a space) is annotated a second time on reapplication. -/
theorem enhance_query_not_idempotent :
    enhance_query (enhance_query "customer12345") ≠
      enhance_query "customer12345" := by
  decide

/-- Claim C6, amended: the rewrite is purely additive — for every query
it either returns the text unchanged or appends exactly one
`" (Customer ID: N)"` suffix, never modifying the original text, and it
appends precisely when an id is recognizable and the query is not already
phrased as `"customer N"` or `"id N"` — but it is not idempotent: an
already-annotated query gets a second suffix, because the annotation
itself is spelled with a colon and so never satisfies the phrasing
checks. -/
theorem enhance_query_additive (q : String) :
    (∀ n, (extract_id_digits q).map String.mk = some n →
      sContains (pyLower q) ("customer " ++ n) = false →
      sContains (pyLower q) ("id " ++ n) = false →
      enhance_query q = q ++ " (Customer ID: " ++ n ++ ")") ∧
    (enhance_query q = q ∨
      ∃ n, enhance_query q = q ++ " (Customer ID: " ++ n ++ ")") := by
  constructor
  · intro n hn h1 h2
    unfold enhance_query
    rw [hn]
    simp [h1, h2]
  · cases h : (extract_id_digits q).map String.mk with
    | none =>
      left
      unfold enhance_query
      rw [h]
    | some n =>
      by_cases hc : (sContains (pyLower q) ("customer " ++ n) ||
          sContains (pyLower q) ("id " ++ n)) = true
      · refine Or.inl ?_
        unfold enhance_query
        rw [h]
        exact if_pos hc
      · refine Or.inr ⟨n, ?_⟩
        unfold enhance_query
        rw [h]
        exact if_neg hc

/-- Claim C6, witness for the amended theorem: the rewrite annotates
`"customer12345"` by pure suffix append. -/
theorem enhance_query_additive_witness :
    enhance_query "customer12345" =
      "customer12345" ++ " (Customer ID: " ++ "12345" ++ ")" :=
  (enhance_query_additive "customer12345").1 "12345"
    (by decide) (by decide) (by decide)

/-- Claim C7, counterexample. The claim says the rule pass taken when the
generation step emits no tool call always invokes one of the five tool
operations, so the Data Agent never returns without attempting at least
one lookup.  The query `"hello there"` matches none of the rule-pass
patterns and contains no extractable customer id, so the pass attempts no
tool call at all (the agent instead returns the fixed
`"Could not determine action from query: ..."` text). -/
theorem rule_pass_cex : rule_pass_calls "hello there" = [] := by
  decide

/-- Claim C7, amended: the no-tool-call fallback is a deterministic rule
pass over the raw query text, and it attempts at least one tool call
whenever the `(?:customer|id)\s*(\d+)` pattern extracts a truthy
(nonzero) customer id from the query and the query does not take the
update-email branch (which attempts a call only when an email or a
ticket-history keyword is found); but a query matching no pattern and
carrying no extractable id yields a fixed no-action result with no tool
call attempted. -/
theorem rule_pass_attempts (q : String)
    (hid : pyTruthyNat (extracted_id_of q) = true)
    (hupd : ¬(sContains (pyLower q) "update" = true ∧
              sContains (pyLower q) "email" = true)) :
    rule_pass_calls q ≠ [] := by
  obtain ⟨n, hn, hn0⟩ : ∃ n, extracted_id_of q = some n ∧ ¬n = 0 := by
    cases h : extracted_id_of q with
    | none =>
      rw [h] at hid
      exact absurd hid (by simp [pyTruthyNat])
    | some m =>
      rw [h] at hid
      refine ⟨m, rfl, ?_⟩
      simpa [pyTruthyNat] using hid
  simp only [rule_pass_calls, hn]
  split
  · simp [hn0]
  · split
    · simp [hn0]
    · split
      · rename_i h3
        rw [Bool.and_eq_true] at h3
        exact absurd h3 hupd
      · split
        · simp
        · split
          · simp
          · simp [hn0]

/-- Claim C7, witness for the amended theorem at a concrete query with an
extractable id. -/
theorem rule_pass_attempts_witness :
    pyTruthyNat (extracted_id_of "i am customer 7 and need help") = true ∧
    rule_pass_calls "i am customer 7 and need help" ≠ [] :=
  ⟨by decide,
   rule_pass_attempts "i am customer 7 and need help" (by decide) (by decide)⟩

/-- Claim C8: the Data Agent's argument normalization for `get_customer`
maps the untrusted mapping `{"__arg1": "12345"}` to
`{"customer_id": 12345}` — the string is converted to the integer id —
whatever id was pre-extracted from the query and whatever the query text
is. -/
theorem normalize_arg1_get_customer (extracted_id : Option Int)
    (qld : List Char) :
    normalize_get_customer [("__arg1", PyVal.strV "12345")] extracted_id qld =
      [("customer_id", PyVal.intV 12345)] := by
  rfl

/-- Claim C9: at the dispatch, a `get_customer` request with
`customer_id = 0` (or missing, the other falsy value of the model) is
rejected by the `if not customer_id` truthiness guard with the 400
`"customer_id is required"` error, for every store; in particular it
never reaches the lookup, so the NotFound branch is unreachable for
id 0. -/
theorem get_customer_zero_is_invalid (cs : List Customer) :
    get_customer (some 0) cs = Except.error Err.invalidArgument ∧
    get_customer none cs = Except.error Err.invalidArgument ∧
    get_customer (some 0) cs ≠ Except.error Err.notFound := by
  have h0 : get_customer (some 0) cs = Except.error Err.invalidArgument := rfl
  refine ⟨h0, rfl, ?_⟩
  rw [h0]
  intro h
  simp at h

/-- Claim C10: at the dispatch, an `update_customer` request whose patch
has no non-null updatable fields returns the no-op success even when the
(nonzero) `customer_id` matches no stored customer: the empty-patch
return happens before any row is touched, so nonexistence is never
reported on this path and the store is unchanged. -/
theorem update_customer_empty_patch_missing_row (i : Int)
    (cs : List Customer) (hi : i ≠ 0) (_habsent : ∀ c ∈ cs, c.id ≠ i) :
    update_customer (some i) emptyPatch cs =
      (Except.ok UpdateResult.noFieldsToUpdate, cs) := by
  simp [update_customer, emptyPatch, patchIsEmpty, hi]

/-- Claim C10, witness: id 99 matches no row of the demo store, yet the
empty patch succeeds and leaves the store unchanged. -/
theorem update_customer_empty_patch_missing_row_witness :
    update_customer (some 99) emptyPatch demoCustomers =
      (Except.ok UpdateResult.noFieldsToUpdate, demoCustomers) :=
  update_customer_empty_patch_missing_row 99 demoCustomers
    (by decide) (by decide)
